import Mathlib

/-!
Verification of the kubectl-pfw port-forward manager
(pkg/portforward: portforward.go, port_allocator.go, manager code).

The Go code is shallowly embedded: int32 ports are modelled as Int
(no arithmetic that could overflow occurs on them), time.Duration
values as Nat nanoseconds, Go maps used as sets as Lists, and the
operating system / Kubernetes API / tunnel transport as explicit
environment records of oracle functions.  Goroutine channels are
modelled by their observable state: a stop channel is a Bool
(closed or not), and Go's close-of-closed-channel panic is an
Except.error.
-/

namespace KubectlPfw

/-! ## Data model (pkg/k8s/pods.go, pkg/ui resource types) -/

/-- k8s.PodPort: a container port of a pod. -/
structure PodPort where
  name : String
  containerPort : Int
  protocol : String
  containerName : String
  isInitContainer : Bool
deriving DecidableEq, Repr

/-- k8s.Pod (field `nspace` models the Go field Namespace;
`namespace` is a Lean keyword). -/
structure Pod where
  name : String
  nspace : String
  ports : List PodPort
deriving DecidableEq, Repr

/-- ui.ResourceType: "service" | "pod" | "deployment" | "statefulset". -/
inductive ResourceType where
  | service
  | pod
  | deployment
  | statefulSet
deriving DecidableEq, Repr

/-- intstr.IntOrString from k8s.io/apimachinery: a tagged union whose
tag `typ` is an integer (0 = Int, 1 = String); other tag values are
possible in principle and hit the resolver's default branch. -/
structure IntOrString where
  typ : Int
  intVal : Int
  strVal : String
deriving DecidableEq, Repr

/-- intstr.Int -/
def intstrInt : Int := 0

/-- intstr.String -/
def intstrString : Int := 1

/-- ui.Resource: a selectable Kubernetes resource.  The Go struct also
carries PortMetadata (display-only init-container info); it is not read
by any code verified here and is omitted. -/
structure Resource where
  name : String
  nspace : String
  typ : ResourceType
  ports : List Int
  portNames : List String
  targetPortSpecs : List (Option IntOrString)
  displayName : String
deriving DecidableEq, Repr

/-! ## Errors

Go reports errors as formatted strings built with fmt.Errorf; each
distinct error site is modelled as a constructor carrying the data
that the Go format string would interpolate. -/

inductive PfError where
  | namedPortNotFound (portName podName nspace : String)
  | unknownTargetPortType (typ : Int)
  | portAlreadyAllocated (port : Int)
  | portUnavailable (port : Int)
  | ephemeralBindFailed
  | targetSpecIndexOutOfBounds (idx : Nat) (serviceName : String)
  | findPodsFailed (resName : String)
  | noPodsFound (resName : String)
  | resolveFailed (resName podName : String) (inner : PfError)
  | noContainerPorts (podName resName : String)
  | allocateLocalPortFailed (inner : PfError)
  | allocateRequestedPortFailed (port : Int) (inner : PfError)
  | podNameRequired (resType : String)
  | tunnelCreationFailed
  | startForwardFailed (resName : String) (inner : PfError)
deriving DecidableEq, Repr

/-! ## Target-port resolution (resolveTargetPort in the manager file) -/

/-- The linear scan inside resolveTargetPort's intstr.String case:
first entry of pod.Ports whose Name equals portName. -/
def findNamedPort (portName : String) : List PodPort → Option Int
  | [] => none
  | podPort :: rest =>
    if podPort.name = portName then some podPort.containerPort
    else findNamedPort portName rest

/-- resolveTargetPort(targetSpec *intstr.IntOrString, servicePort int32,
pod k8s.Pod).  A nil pointer is `none`. -/
def resolveTargetPort (targetSpec : Option IntOrString) (servicePort : Int)
    (pod : Pod) : Except PfError Int :=
  match targetSpec with
  | none => .ok servicePort
  | some spec =>
    if spec.typ = intstrInt then
      if spec.intVal = 0 then .ok servicePort
      else .ok spec.intVal
    else if spec.typ = intstrString then
      match findNamedPort spec.strVal pod.ports with
      | some containerPort => .ok containerPort
      | none => .error (.namedPortNotFound spec.strVal pod.name pod.nspace)
    else
      .error (.unknownTargetPortType spec.typ)

/-! ## Port allocator (pkg/portforward/port_allocator.go)

The OS socket layer is an oracle: `bindOk p` says whether a test
net.Listen on port p would succeed right now, and `ephemeralPort k`
is the port the OS hands back for the k-th bind to ":0" (none = the
bind itself fails).  allocatedPorts is a map[int32]bool used as a
set; it is modelled as a list with membership semantics. -/

structure OsEnv where
  bindOk : Int → Bool
  ephemeralPort : Nat → Option Int

structure AllocState where
  allocatedPorts : List Int
  ephemeralCalls : Nat
deriving DecidableEq, Repr

/-- reserveSpecificPort: reject if this allocator already holds the
port, then test-bind, then record. -/
def reserveSpecificPort (env : OsEnv) (st : AllocState) (port : Int) :
    Except PfError AllocState :=
  if port ∈ st.allocatedPorts then .error (.portAlreadyAllocated port)
  else if env.bindOk port then
    .ok { st with allocatedPorts := port :: st.allocatedPorts }
  else .error (.portUnavailable port)

/-- findAvailableEphemeralPort: bind to ":0", read the assigned port,
record it. -/
def findAvailableEphemeralPort (env : OsEnv) (st : AllocState) :
    Except PfError (Int × AllocState) :=
  match env.ephemeralPort st.ephemeralCalls with
  | none => .error .ephemeralBindFailed
  | some port =>
    .ok (port, { allocatedPorts := port :: st.allocatedPorts,
                 ephemeralCalls := st.ephemeralCalls + 1 })

/-- AllocatePort(requestedPort int32). -/
def allocatePort (env : OsEnv) (st : AllocState) (requestedPort : Int) :
    Except PfError (Int × AllocState) :=
  if requestedPort > 0 then
    match reserveSpecificPort env st requestedPort with
    | .error e => .error e
    | .ok st1 => .ok (requestedPort, st1)
  else
    findAvailableEphemeralPort env st

/-- ReleasePort(port int32): delete from the set; total, never fails. -/
def releasePort (st : AllocState) (port : Int) : AllocState :=
  { st with allocatedPorts := st.allocatedPorts.filter (fun q => q ≠ port) }

/-- IsPortAvailable: a pure OS probe, does not touch the table. -/
def isPortAvailable (env : OsEnv) (port : Int) : Bool :=
  env.bindOk port

/-! ## Forward sessions (pkg/portforward/portforward.go) -/

def MaxRetries : Nat := 5

/-- 1 * time.Second in nanoseconds. -/
def InitialBackoff : Nat := 1000000000

/-- 30 * time.Second in nanoseconds. -/
def MaxBackoff : Nat := 30000000000

def BackoffFactor : Nat := 2

def AutoRetryEnable : Bool := true

/-- The AutoRetry defaulting in StartPortForward:
`autoRetry := AutoRetryEnable; if req.AutoRetry { autoRetry = req.AutoRetry }`. -/
def computeAutoRetry (reqAutoRetry : Bool) : Bool :=
  if reqAutoRetry then reqAutoRetry else AutoRetryEnable

/-- PortForwarder.  The Go struct's ReadyChannel/ErrorChannel/ForwardFn
are runtime channel plumbing; the stop channel's observable state is
kept as `stopClosed`. -/
structure PortForwarder where
  resource : Resource
  localPort : Int
  remotePort : Int
  stopClosed : Bool
  autoRetry : Bool
  retryAttempts : Nat
deriving DecidableEq, Repr

/-- ForwardRequest (the RestConfig/ClientSet/Streams/Context plumbing
fields carry no verified behaviour and are omitted). -/
structure ForwardRequest where
  resource : Resource
  localPort : Int
  remotePort : Int
  podName : String
  autoRetry : Bool
deriving DecidableEq, Repr

/-- Go `close(ch)`: panics when the channel is already closed. -/
def closeChannel (alreadyClosed : Bool) : Except String Unit :=
  if alreadyClosed then .error "close of closed channel" else .ok ()

/-- PortForwarder.Stop(): `close(pf.StopChannel)`. -/
def portForwarderStop (pf : PortForwarder) : Except String PortForwarder :=
  match closeChannel pf.stopClosed with
  | .error msg => .error msg
  | .ok _ => .ok { pf with stopClosed := true }

/-- Observable outcome of one run of the retry loop inside
StartPortForward's goroutine, for a session that is never stopped
externally.  `waits` are the backoff sleeps in order (nanoseconds),
`attempts` the number of ForwardPorts calls, `terminalRetryCount` the
value of retryCount when the terminal-error branch fired,
`finalErrorAttempts` the attempt count sent on the error channel, and
`stopClosed` whether the loop closed the stop channel itself. -/
structure RetryRunResult where
  waits : List Nat
  attempts : Nat
  terminalRetryCount : Option Nat
  finalErrorAttempts : Option Nat
  stopClosed : Bool
deriving DecidableEq, Repr

/-- The for-loop of StartPortForward's goroutine.  `failAt k` is the
tunnel provider's behaviour: does the (k+1)-th pf.ForwardPorts() call
return an error?  The loop body: return on success; on error either
send a terminal error and close the stop channel (auto-retry off or
retryCount >= MaxRetries) or sleep `backoff`, increment retryCount and
double backoff capped at MaxBackoff, then loop. -/
def runForwardLoop (failAt : Nat → Bool) (autoRetry : Bool)
    (attemptIdx retryCount backoff : Nat) : RetryRunResult :=
  if _h1 : failAt attemptIdx = false then
    { waits := [], attempts := 1, terminalRetryCount := none,
      finalErrorAttempts := none, stopClosed := false }
  else if _h2 : autoRetry = false ∨ MaxRetries ≤ retryCount then
    { waits := [], attempts := 1, terminalRetryCount := some retryCount,
      finalErrorAttempts := some (retryCount + 1), stopClosed := true }
  else
    let doubled := backoff * BackoffFactor
    let nextBackoff := if MaxBackoff < doubled then MaxBackoff else doubled
    let next := runForwardLoop failAt autoRetry (attemptIdx + 1)
      (retryCount + 1) nextBackoff
    { waits := backoff :: next.waits, attempts := next.attempts + 1,
      terminalRetryCount := next.terminalRetryCount,
      finalErrorAttempts := next.finalErrorAttempts,
      stopClosed := next.stopClosed }
termination_by MaxRetries + 1 - retryCount
decreasing_by
  rw [not_or] at _h2
  omega

/-! ## Manager (the manager file of pkg/portforward)

The Kubernetes API and the tunnel transport are oracles in
`ManagerEnv`: `podsForService`/`podsForDeployment`/`podsForStatefulSet`
are the k8s client lookups (error = the API call failed), and
`startForwardOk k` says whether the k-th StartPortForward call in this
run succeeds (covers the spdy round-tripper and dialer setup).
`MgrState.startCalls` counts those calls so the oracle can be indexed;
it mirrors no Go field. -/

structure ManagerEnv where
  os : OsEnv
  podsForService : String → Except String (List Pod)
  podsForDeployment : String → Except String (List Pod)
  podsForStatefulSet : String → Except String (List Pod)
  startForwardOk : Nat → Bool

structure MgrState where
  alloc : AllocState
  forwarders : List PortForwarder
  startCalls : Nat
deriving DecidableEq, Repr

/-- Outcome of one manager call: the mutated manager state plus the
returned Go error (none = nil).  Go panics are kept separate as the
Except.error of the surrounding function. -/
structure ForwardResult where
  state : MgrState
  err : Option PfError
deriving DecidableEq, Repr

/-- The PortForwarder literal built inside StartPortForward. -/
def mkPortForwarder (req : ForwardRequest) : PortForwarder :=
  { resource := req.resource, localPort := req.localPort,
    remotePort := req.remotePort, stopClosed := false,
    autoRetry := computeAutoRetry req.autoRetry, retryAttempts := 0 }

/-- resourceType display strings used in error messages. -/
def resourceTypeString : ResourceType → String
  | .service => "service"
  | .deployment => "deployment"
  | .statefulSet => "statefulset"
  | .pod => "pod"

/-- StartPortForward(req): validates the pod name for indirect targets,
sets up the tunnel (oracle `startForwardOk`), and returns the
forwarder.  `callIdx` is the index into the oracle. -/
def startPortForward (env : ManagerEnv) (callIdx : Nat)
    (req : ForwardRequest) : Except PfError PortForwarder :=
  match req.resource.typ with
  | .service | .deployment | .statefulSet =>
    if req.podName = "" then
      .error (.podNameRequired (resourceTypeString req.resource.typ))
    else if env.startForwardOk callIdx then .ok (mkPortForwarder req)
    else .error .tunnelCreationFailed
  | .pod =>
    if env.startForwardOk callIdx then .ok (mkPortForwarder req)
    else .error .tunnelCreationFailed

/-- The container-port selection inlined in forwardDeploymentPort and
forwardStatefulSetPort: ports[portIndex] when in range, else ports[0]
when the pod has any port, else no port (the caller errors). -/
def selectPodPort (portIndex : Nat) (selectedPod : Pod) : Option Int :=
  match selectedPod.ports.get? portIndex with
  | some podPort => some podPort.containerPort
  | none =>
    match selectedPod.ports.head? with
    | some podPort => some podPort.containerPort
    | none => none

/-- The local-port allocation block repeated in all four forwarding
paths: when localPort is 0 try the suggested port and fall back once
to AllocatePort(0); otherwise allocate exactly the requested port with
no fallback. -/
def allocateLocalPort (env : ManagerEnv) (st : AllocState)
    (localPort suggestedPort : Int) : Except PfError (Int × AllocState) :=
  if localPort = 0 then
    match allocatePort env.os st suggestedPort with
    | .ok r => .ok r
    | .error _ =>
      match allocatePort env.os st 0 with
      | .ok r => .ok r
      | .error e => .error (.allocateLocalPortFailed e)
  else
    match allocatePort env.os st localPort with
    | .ok r => .ok (localPort, r.2)
    | .error e => .error (.allocateRequestedPortFailed localPort e)

/-- The loop body of stopResourceForwarders: for every forwarder of
the given resource (same name and namespace), fw.Stop() and
ReleasePort(fw.LocalPort).  fw.Stop() is a channel close, so an
already-stopped matching forwarder makes the Go code panic
(Except.error here). -/
def stopMatchingForwarders (resource : Resource) :
    List PortForwarder → AllocState →
    Except String (List PortForwarder × AllocState)
  | [], alloc => .ok ([], alloc)
  | fw :: rest, alloc =>
    if fw.resource.name = resource.name ∧ fw.resource.nspace = resource.nspace then
      match portForwarderStop fw with
      | .error msg => .error msg
      | .ok fw1 =>
        match stopMatchingForwarders resource rest (releasePort alloc fw.localPort) with
        | .error msg => .error msg
        | .ok (rest1, alloc1) => .ok (fw1 :: rest1, alloc1)
    else
      match stopMatchingForwarders resource rest alloc with
      | .error msg => .error msg
      | .ok (rest1, alloc1) => .ok (fw :: rest1, alloc1)

/-- stopResourceForwarders(resource). -/
def stopResourceForwarders (st : MgrState) (resource : Resource) :
    Except String MgrState :=
  match stopMatchingForwarders resource st.forwarders st.alloc with
  | .error msg => .error msg
  | .ok (fws, alloc1) => .ok { st with forwarders := fws, alloc := alloc1 }

/-- The loop body of Manager.Stop(): every forwarder is stopped and its
port released; a second close of any stop channel panics. -/
def stopAllForwarders :
    List PortForwarder → AllocState →
    Except String (List PortForwarder × AllocState)
  | [], alloc => .ok ([], alloc)
  | fw :: rest, alloc =>
    match portForwarderStop fw with
    | .error msg => .error msg
    | .ok fw1 =>
      match stopAllForwarders rest (releasePort alloc fw.localPort) with
      | .error msg => .error msg
      | .ok (rest1, alloc1) => .ok (fw1 :: rest1, alloc1)

/-- Manager.Stop(). -/
def managerStop (st : MgrState) : Except String MgrState :=
  match stopAllForwarders st.forwarders st.alloc with
  | .error msg => .error msg
  | .ok (fws, alloc1) => .ok { st with forwarders := fws, alloc := alloc1 }

/-- The failure block after a StartPortForward error, identical in all
four forwarding paths: ReleasePort(localPort) has already been applied
to `st2`; stop the resource's forwarders and return the wrapped error. -/
def handleStartFailure (st2 : MgrState) (resource : Resource) (e : PfError) :
    Except String ForwardResult :=
  match stopResourceForwarders st2 resource with
  | .error msg => .error msg
  | .ok st3 => .ok ⟨st3, some (.startForwardFailed resource.name e)⟩

/-- forwardServicePort(resource, portIndex, localPort, servicePort). -/
def forwardServicePort (env : ManagerEnv) (st : MgrState)
    (resource : Resource) (portIndex : Nat) (localPort servicePort : Int) :
    Except String ForwardResult :=
  match resource.targetPortSpecs.get? portIndex with
  | none => .ok ⟨st, some (.targetSpecIndexOutOfBounds portIndex resource.name)⟩
  | some targetSpec =>
    match env.podsForService resource.name with
    | .error _ => .ok ⟨st, some (.findPodsFailed resource.name)⟩
    | .ok pods =>
      match pods.head? with
      | none => .ok ⟨st, some (.noPodsFound resource.name)⟩
      | some selectedPod =>
        match resolveTargetPort targetSpec servicePort selectedPod with
        | .error e => .ok ⟨st, some (.resolveFailed resource.name selectedPod.name e)⟩
        | .ok resolvedPodPort =>
          match allocateLocalPort env st.alloc localPort resolvedPodPort with
          | .error e => .ok ⟨st, some e⟩
          | .ok (lp, alloc1) =>
            let st1 : MgrState := { st with alloc := alloc1 }
            let req : ForwardRequest :=
              { resource := resource, localPort := lp,
                remotePort := resolvedPodPort,
                podName := selectedPod.name, autoRetry := true }
            match startPortForward env st1.startCalls req with
            | .error e =>
              handleStartFailure
                { st1 with alloc := releasePort st1.alloc lp,
                           startCalls := st1.startCalls + 1 } resource e
            | .ok fw =>
              let st2 : MgrState :=
                { st1 with forwarders := st1.forwarders ++ [fw],
                           startCalls := st1.startCalls + 1 }
              .ok ⟨st2, none⟩

/-- forwardDeploymentPort(resource, portIndex, localPort, deploymentPort). -/
def forwardDeploymentPort (env : ManagerEnv) (st : MgrState)
    (resource : Resource) (portIndex : Nat) (localPort deploymentPort : Int) :
    Except String ForwardResult :=
  match env.podsForDeployment resource.name with
  | .error _ => .ok ⟨st, some (.findPodsFailed resource.name)⟩
  | .ok pods =>
    match pods.head? with
    | none => .ok ⟨st, some (.noPodsFound resource.name)⟩
    | some selectedPod =>
      match selectPodPort portIndex selectedPod with
      | none => .ok ⟨st, some (.noContainerPorts selectedPod.name resource.name)⟩
      | some podPort =>
        match allocateLocalPort env st.alloc localPort podPort with
        | .error e => .ok ⟨st, some e⟩
        | .ok (lp, alloc1) =>
          let st1 : MgrState := { st with alloc := alloc1 }
          let req : ForwardRequest :=
            { resource := resource, localPort := lp, remotePort := podPort,
              podName := selectedPod.name, autoRetry := true }
          match startPortForward env st1.startCalls req with
          | .error e =>
            handleStartFailure
              { st1 with alloc := releasePort st1.alloc lp,
                         startCalls := st1.startCalls + 1 } resource e
          | .ok fw =>
            let st2 : MgrState :=
              { st1 with forwarders := st1.forwarders ++ [fw],
                         startCalls := st1.startCalls + 1 }
            .ok ⟨st2, none⟩

/-- forwardStatefulSetPort(resource, portIndex, localPort, statefulSetPort). -/
def forwardStatefulSetPort (env : ManagerEnv) (st : MgrState)
    (resource : Resource) (portIndex : Nat) (localPort statefulSetPort : Int) :
    Except String ForwardResult :=
  match env.podsForStatefulSet resource.name with
  | .error _ => .ok ⟨st, some (.findPodsFailed resource.name)⟩
  | .ok pods =>
    match pods.head? with
    | none => .ok ⟨st, some (.noPodsFound resource.name)⟩
    | some selectedPod =>
      match selectPodPort portIndex selectedPod with
      | none => .ok ⟨st, some (.noContainerPorts selectedPod.name resource.name)⟩
      | some podPort =>
        match allocateLocalPort env st.alloc localPort podPort with
        | .error e => .ok ⟨st, some e⟩
        | .ok (lp, alloc1) =>
          let st1 : MgrState := { st with alloc := alloc1 }
          let req : ForwardRequest :=
            { resource := resource, localPort := lp, remotePort := podPort,
              podName := selectedPod.name, autoRetry := true }
          match startPortForward env st1.startCalls req with
          | .error e =>
            handleStartFailure
              { st1 with alloc := releasePort st1.alloc lp,
                         startCalls := st1.startCalls + 1 } resource e
          | .ok fw =>
            let st2 : MgrState :=
              { st1 with forwarders := st1.forwarders ++ [fw],
                         startCalls := st1.startCalls + 1 }
            .ok ⟨st2, none⟩

/-- The `default` (pod) case of ForwardResource's switch: allocate the
local port (container port used directly as the remote port) and start
the forward. -/
def forwardPodPort (env : ManagerEnv) (st : MgrState)
    (resource : Resource) (localPort portValue : Int) :
    Except String ForwardResult :=
  let podContainerPort := portValue
  match allocateLocalPort env st.alloc localPort podContainerPort with
  | .error e => .ok ⟨st, some e⟩
  | .ok (lp, alloc1) =>
    let st1 : MgrState := { st with alloc := alloc1 }
    let req : ForwardRequest :=
      { resource := resource, localPort := lp, remotePort := podContainerPort,
        podName := "", autoRetry := true }
    match startPortForward env st1.startCalls req with
    | .error e =>
      handleStartFailure
        { st1 with alloc := releasePort st1.alloc lp,
                   startCalls := st1.startCalls + 1 } resource e
    | .ok fw =>
      let st2 : MgrState :=
        { st1 with forwarders := st1.forwarders ++ [fw],
                   startCalls := st1.startCalls + 1 }
      .ok ⟨st2, none⟩

/-- ForwardResource's per-port type dispatch. -/
def forwardOnePort (env : ManagerEnv) (st : MgrState) (resource : Resource)
    (i : Nat) (localPort portValue : Int) : Except String ForwardResult :=
  match resource.typ with
  | .service => forwardServicePort env st resource i localPort portValue
  | .deployment => forwardDeploymentPort env st resource i localPort portValue
  | .statefulSet => forwardStatefulSetPort env st resource i localPort portValue
  | .pod => forwardPodPort env st resource localPort portValue

/-- The local-port defaulting at the top of ForwardResource's loop:
an explicit mapping entry wins (0 included); otherwise 0 for
service/deployment/statefulset targets (decided later) and the
container port itself for pods. -/
def defaultLocalPort (portMapping : Nat → Option Int) (resource : Resource)
    (i : Nat) (portValue : Int) : Int :=
  match portMapping i with
  | some mapped => mapped
  | none =>
    match resource.typ with
    | .service | .deployment | .statefulSet => 0
    | .pod => portValue

/-- The for-loop of ForwardResource, from port index i. -/
def forwardPortsFrom (env : ManagerEnv) (resource : Resource)
    (portMapping : Nat → Option Int) :
    Nat → List Int → MgrState → Except String ForwardResult
  | _, [], st => .ok ⟨st, none⟩
  | i, portValue :: rest, st =>
    let localPort := defaultLocalPort portMapping resource i portValue
    match forwardOnePort env st resource i localPort portValue with
    | .error msg => .error msg
    | .ok res =>
      match res.err with
      | some e => .ok ⟨res.state, some e⟩
      | none => forwardPortsFrom env resource portMapping (i + 1) rest res.state

/-- ForwardResource(resource, portMapping): the manager's Start call
for one resource.  portMapping models the Go map[int]int32. -/
def forwardResource (env : ManagerEnv) (st : MgrState) (resource : Resource)
    (portMapping : Nat → Option Int) : Except String ForwardResult :=
  forwardPortsFrom env resource portMapping 0 resource.ports st

/-! ## Helper lemmas -/

theorem findNamedPort_eq_none_iff (portName : String) (l : List PodPort) :
    findNamedPort portName l = none ↔ ∀ p ∈ l, p.name ≠ portName := by
  induction l with
  | nil => simp [findNamedPort]
  | cons head tail ih =>
    by_cases h : head.name = portName
    · simp [findNamedPort, h]
    · simp [findNamedPort, h, ih]

theorem findNamedPort_first (portName : String) (l : List PodPort)
    (i : Nat) (p : PodPort) (hget : l.get? i = some p)
    (hname : p.name = portName)
    (hbefore : ∀ j, j < i → ∀ q, l.get? j = some q → q.name ≠ portName) :
    findNamedPort portName l = some p.containerPort := by
  induction l generalizing i with
  | nil => simp at hget
  | cons head tail ih =>
    cases i with
    | zero =>
      rw [List.get?_cons_zero] at hget
      cases hget
      simp [findNamedPort, hname]
    | succ i =>
      have hhead : head.name ≠ portName := hbefore 0 (Nat.succ_pos _) head rfl
      rw [List.get?_cons_succ] at hget
      simp only [findNamedPort, if_neg hhead]
      exact ih i hget (fun j hj q hq =>
        hbefore (j + 1) (Nat.succ_lt_succ hj) q hq)

theorem findNamedPort_eq_some (portName : String) (l : List PodPort)
    (c : Int) (h : findNamedPort portName l = some c) :
    ∃ p ∈ l, p.name = portName ∧ p.containerPort = c := by
  induction l with
  | nil => simp [findNamedPort] at h
  | cons head tail ih =>
    by_cases hh : head.name = portName
    · simp only [findNamedPort, if_pos hh] at h
      cases h
      exact ⟨head, List.mem_cons_self head tail, hh, rfl⟩
    · simp only [findNamedPort, if_neg hh] at h
      obtain ⟨p, hp, hpn, hpc⟩ := ih h
      exact ⟨p, List.mem_cons_of_mem head hp, hpn, hpc⟩

/-! ## Claim theorems -/

/-- C5: for every pod and named target-port spec, resolveTargetPort
scans pod.ports linearly and returns the containerPort of the first
entry whose name equals the requested name (exact comparison), and it
fails with the named-port-not-found error if and only if no entry's
name matches. -/
theorem resolveTargetPort_named_first_match (portName : String)
    (iv servicePort : Int) (pod : Pod) :
    (∀ i p, pod.ports.get? i = some p → p.name = portName →
      (∀ j, j < i → ∀ q, pod.ports.get? j = some q → q.name ≠ portName) →
      resolveTargetPort (some ⟨intstrString, iv, portName⟩) servicePort pod
        = .ok p.containerPort)
    ∧ (resolveTargetPort (some ⟨intstrString, iv, portName⟩) servicePort pod
        = .error (.namedPortNotFound portName pod.name pod.nspace)
      ↔ ∀ p ∈ pod.ports, p.name ≠ portName) := by
  constructor
  · intro i p hget hname hbefore
    have hfind := findNamedPort_first portName pod.ports i p hget hname hbefore
    simp [resolveTargetPort, intstrInt, intstrString, hfind]
  · constructor
    · intro h
      rw [← findNamedPort_eq_none_iff]
      cases hfind : findNamedPort portName pod.ports with
      | none => rfl
      | some c => simp [resolveTargetPort, intstrInt, intstrString, hfind] at h
    · intro h
      have hfind : findNamedPort portName pod.ports = none :=
        (findNamedPort_eq_none_iff portName pod.ports).mpr h
      simp [resolveTargetPort, intstrInt, intstrString, hfind]

/-- Witness for C5: on a pod exposing ports named "metrics" (9100) and
"http" (8080), resolving the named target "http" gives 8080, and
resolving the absent name "missing" fails with NamedPortNotFound. -/
theorem resolveTargetPort_named_first_match_witness :
    resolveTargetPort
      (some ⟨intstrString, 0, "http"⟩) 80
      ⟨"p1", "ns1", [⟨"metrics", 9100, "TCP", "c1", false⟩,
                     ⟨"http", 8080, "TCP", "c1", false⟩]⟩ = .ok 8080
    ∧ resolveTargetPort
      (some ⟨intstrString, 0, "missing"⟩) 80
      ⟨"p1", "ns1", [⟨"metrics", 9100, "TCP", "c1", false⟩,
                     ⟨"http", 8080, "TCP", "c1", false⟩]⟩
      = .error (.namedPortNotFound "missing" "p1" "ns1") := by
  constructor
  · exact (resolveTargetPort_named_first_match "http" 0 80
      ⟨"p1", "ns1", [⟨"metrics", 9100, "TCP", "c1", false⟩,
                     ⟨"http", 8080, "TCP", "c1", false⟩]⟩).1 1
      ⟨"http", 8080, "TCP", "c1", false⟩ rfl rfl
      (by intro j hj q hq
          interval_cases j
          · cases hq
            decide)
  · exact (resolveTargetPort_named_first_match "missing" 0 80
      ⟨"p1", "ns1", [⟨"metrics", 9100, "TCP", "c1", false⟩,
                     ⟨"http", 8080, "TCP", "c1", false⟩]⟩).2.mpr (by decide)

/-- C6: resolveTargetPort with a nil target spec ("unspecified") or a
numeric target 0 returns the exposed (service) port for every pod, and
a nonzero numeric target n is returned directly; none of these cases
can fail. -/
theorem resolveTargetPort_numeric_default (exposed : Int) (pod : Pod)
    (sv : String) (iv : Int) :
    resolveTargetPort none exposed pod = .ok exposed
    ∧ resolveTargetPort (some ⟨intstrInt, 0, sv⟩) exposed pod = .ok exposed
    ∧ (iv ≠ 0 →
        resolveTargetPort (some ⟨intstrInt, iv, sv⟩) exposed pod = .ok iv) := by
  refine ⟨rfl, by simp [resolveTargetPort], fun h => ?_⟩
  simp [resolveTargetPort, h]

/-- Witness for C6: NumericTarget(0) with exposed port 80 returns 80
on a pod whose only container port is 9999, and NumericTarget(9376)
returns 9376. -/
theorem resolveTargetPort_numeric_default_witness :
    resolveTargetPort none 80
      ⟨"p1", "ns1", [⟨"x", 9999, "TCP", "c1", false⟩]⟩ = .ok 80
    ∧ resolveTargetPort (some ⟨intstrInt, 0, ""⟩) 80
      ⟨"p1", "ns1", [⟨"x", 9999, "TCP", "c1", false⟩]⟩ = .ok 80
    ∧ resolveTargetPort (some ⟨intstrInt, 9376, ""⟩) 80
      ⟨"p1", "ns1", [⟨"x", 9999, "TCP", "c1", false⟩]⟩ = .ok 9376 := by
  have h := resolveTargetPort_numeric_default 80
    ⟨"p1", "ns1", [⟨"x", 9999, "TCP", "c1", false⟩]⟩ "" 9376
  exact ⟨h.1, h.2.1, h.2.2 (by decide)⟩

/-- C7: deployment/statefulset remote-port resolution picks
pod.ports[portIndex] when the index is in range, falls back to
pod.ports[0] when it is out of range but the pod has at least one
port, and fails (no-container-ports error in both forwarding paths)
exactly when the pod exposes no ports. -/
theorem selectPodPort_resolution (i : Nat) (pod : Pod) :
    (∀ p, pod.ports.get? i = some p → selectPodPort i pod = some p.containerPort)
    ∧ (pod.ports.get? i = none → ∀ p0, pod.ports.head? = some p0 →
        selectPodPort i pod = some p0.containerPort)
    ∧ (selectPodPort i pod = none ↔ pod.ports = [])
    ∧ (∀ env st resource localPort dp pods selectedPod,
        env.podsForDeployment resource.name = .ok pods →
        pods.head? = some selectedPod → selectedPod.ports = [] →
        forwardDeploymentPort env st resource i localPort dp
          = .ok ⟨st, some (.noContainerPorts selectedPod.name resource.name)⟩)
    ∧ (∀ env st resource localPort sp pods selectedPod,
        env.podsForStatefulSet resource.name = .ok pods →
        pods.head? = some selectedPod → selectedPod.ports = [] →
        forwardStatefulSetPort env st resource i localPort sp
          = .ok ⟨st, some (.noContainerPorts selectedPod.name resource.name)⟩) := by
  refine ⟨?_, ?_, ?_, ?_, ?_⟩
  · intro p h
    rw [List.get?_eq_getElem?] at h
    simp [selectPodPort, h]
  · intro h p0 h0
    rw [List.get?_eq_getElem?] at h
    simp [selectPodPort, h, h0]
  · cases hp : pod.ports with
    | nil =>
      have hi : pod.ports[i]? = none := by simp [hp]
      simp [selectPodPort, hi, hp]
    | cons a l =>
      cases hg : pod.ports[i]? with
      | some p =>
        rw [hp] at hg
        simp [selectPodPort, hp, hg]
      | none =>
        rw [hp] at hg
        simp [selectPodPort, hp, hg]
  · intro env st resource localPort dp pods selectedPod h1 h2 h3
    have hsel : selectPodPort i selectedPod = none := by
      simp [selectPodPort, h3]
    simp [forwardDeploymentPort, h1, h2, hsel]
  · intro env st resource localPort sp pods selectedPod h1 h2 h3
    have hsel : selectPodPort i selectedPod = none := by
      simp [selectPodPort, h3]
    simp [forwardStatefulSetPort, h1, h2, hsel]

/-- Witness for C7: on a pod with container ports 1111 and 2222,
index 1 resolves to 2222, the out-of-range index 5 falls back to 1111,
and on a pod with no ports resolution yields none. -/
theorem selectPodPort_resolution_witness :
    selectPodPort 1 ⟨"p", "ns", [⟨"a", 1111, "TCP", "c", false⟩,
                                 ⟨"b", 2222, "TCP", "c", false⟩]⟩ = some 2222
    ∧ selectPodPort 5 ⟨"p", "ns", [⟨"a", 1111, "TCP", "c", false⟩,
                                   ⟨"b", 2222, "TCP", "c", false⟩]⟩ = some 1111
    ∧ selectPodPort 0 ⟨"p", "ns", []⟩ = none := by
  refine ⟨?_, ?_, ?_⟩
  · exact (selectPodPort_resolution 1
      ⟨"p", "ns", [⟨"a", 1111, "TCP", "c", false⟩,
                   ⟨"b", 2222, "TCP", "c", false⟩]⟩).1
      ⟨"b", 2222, "TCP", "c", false⟩ rfl
  · exact (selectPodPort_resolution 5
      ⟨"p", "ns", [⟨"a", 1111, "TCP", "c", false⟩,
                   ⟨"b", 2222, "TCP", "c", false⟩]⟩).2.1 rfl
      ⟨"a", 1111, "TCP", "c", false⟩ rfl
  · exact (selectPodPort_resolution 0 ⟨"p", "ns", []⟩).2.2.1.mpr rfl

/-- C8: for a requested port P > 0, AllocatePort fails with
PortAlreadyAllocated whenever the allocator's own table holds P — the
statement quantifies over every OS oracle, so in particular over ones
whose probe of P reports it free — fails with PortUnavailable when the
test-bind fails, and on success records P in the table and returns it. -/
theorem allocatePort_specific_cases (env : OsEnv) (st : AllocState)
    (p : Int) (hp : 0 < p) :
    (p ∈ st.allocatedPorts →
      allocatePort env st p = .error (.portAlreadyAllocated p))
    ∧ (p ∉ st.allocatedPorts → env.bindOk p = false →
      allocatePort env st p = .error (.portUnavailable p))
    ∧ (p ∉ st.allocatedPorts → env.bindOk p = true →
      allocatePort env st p
        = .ok (p, { st with allocatedPorts := p :: st.allocatedPorts })) := by
  refine ⟨?_, ?_, ?_⟩
  · intro hmem
    simp [allocatePort, reserveSpecificPort, hp, hmem]
  · intro hmem hbind
    simp [allocatePort, reserveSpecificPort, hp, hmem, hbind]
  · intro hmem hbind
    simp [allocatePort, reserveSpecificPort, hp, hmem, hbind]

/-- Witness for C8: with port 2 held by the allocator and an OS whose
probe reports every port except 3 free, requesting 2 fails
PortAlreadyAllocated (despite the free probe), requesting 3 fails
PortUnavailable, and requesting 5 succeeds and records 5. -/
theorem allocatePort_specific_cases_witness :
    allocatePort ⟨fun q => q ≠ 3, fun _ => some 50000⟩ ⟨[2], 0⟩ 2
      = .error (.portAlreadyAllocated 2)
    ∧ allocatePort ⟨fun q => q ≠ 3, fun _ => some 50000⟩ ⟨[2], 0⟩ 3
      = .error (.portUnavailable 3)
    ∧ allocatePort ⟨fun q => q ≠ 3, fun _ => some 50000⟩ ⟨[2], 0⟩ 5
      = .ok (5, ⟨[5, 2], 0⟩) := by
  have h2 := allocatePort_specific_cases
    ⟨fun q => q ≠ 3, fun _ => some 50000⟩ ⟨[2], 0⟩ 2 (by decide)
  have h3 := allocatePort_specific_cases
    ⟨fun q => q ≠ 3, fun _ => some 50000⟩ ⟨[2], 0⟩ 3 (by decide)
  have h5 := allocatePort_specific_cases
    ⟨fun q => q ≠ 3, fun _ => some 50000⟩ ⟨[2], 0⟩ 5 (by decide)
  exact ⟨h2.1 (by decide), h3.2.1 (by decide) (by decide),
         h5.2.2 (by decide) (by decide)⟩

/-- C9: ReleasePort is total (it is a plain function into AllocState)
and idempotent: releasing a port twice equals releasing it once,
releasing an unallocated port leaves the state unchanged, membership
of every other port is unaffected, and the released port is no longer
in the table. -/
theorem releasePort_idempotent_total (st : AllocState) (p q : Int) :
    releasePort (releasePort st p) p = releasePort st p
    ∧ (p ∉ st.allocatedPorts → releasePort st p = st)
    ∧ (q ≠ p →
        (q ∈ (releasePort st p).allocatedPorts ↔ q ∈ st.allocatedPorts))
    ∧ p ∉ (releasePort st p).allocatedPorts := by
  obtain ⟨l, ec⟩ := st
  refine ⟨?_, ?_, ?_, ?_⟩
  · simp only [releasePort]
    congr 1
    induction l with
    | nil => rfl
    | cons a t ih =>
      by_cases h : a = p
      · simp [List.filter, h, ih]
      · simp [List.filter, h, ih]
  · intro hp
    simp only [releasePort]
    congr 1
    exact List.filter_eq_self.mpr (fun a ha => by
      simp only [decide_eq_true_eq]
      exact fun hap => hp (hap ▸ ha))
  · intro hq
    simp [releasePort, List.mem_filter, hq]
  · simp [releasePort, List.mem_filter]

/-- Witness for C9: with allocated ports 1 and 2, releasing the absent
port 3 twice keeps the table unchanged both times, and releasing 2
removes 2 while keeping 1. -/
theorem releasePort_idempotent_total_witness :
    releasePort (releasePort ⟨[1, 2], 0⟩ 3) 3 = releasePort ⟨[1, 2], 0⟩ 3
    ∧ releasePort ⟨[1, 2], 0⟩ 3 = ⟨[1, 2], 0⟩
    ∧ (1 ∈ (releasePort ⟨[1, 2], 0⟩ 2).allocatedPorts
        ↔ 1 ∈ (⟨[1, 2], 0⟩ : AllocState).allocatedPorts)
    ∧ 2 ∉ (releasePort ⟨[1, 2], 0⟩ 2).allocatedPorts := by
  have h3 := releasePort_idempotent_total ⟨[1, 2], 0⟩ 3 1
  have h2 := releasePort_idempotent_total ⟨[1, 2], 0⟩ 2 1
  exact ⟨h3.1, h3.2.1 (by decide), h2.2.2.1 (by decide), h2.2.2.2⟩

/-! Step equations for runForwardLoop (its recursion is well-founded,
so these rewriting lemmas replace definitional unfolding). -/

theorem runForwardLoop_eq_success (failAt : Nat → Bool) (autoRetry : Bool)
    (i rc b : Nat) (h1 : failAt i = false) :
    runForwardLoop failAt autoRetry i rc b = ⟨[], 1, none, none, false⟩ := by
  rw [runForwardLoop]
  rw [dif_pos h1]

theorem runForwardLoop_eq_terminal (failAt : Nat → Bool) (autoRetry : Bool)
    (i rc b : Nat) (h1 : ¬ failAt i = false)
    (h2 : autoRetry = false ∨ MaxRetries ≤ rc) :
    runForwardLoop failAt autoRetry i rc b
      = ⟨[], 1, some rc, some (rc + 1), true⟩ := by
  rw [runForwardLoop]
  rw [dif_neg h1, dif_pos h2]

theorem runForwardLoop_eq_retry (failAt : Nat → Bool) (autoRetry : Bool)
    (i rc b : Nat) (h1 : ¬ failAt i = false)
    (h2 : ¬ (autoRetry = false ∨ MaxRetries ≤ rc)) :
    runForwardLoop failAt autoRetry i rc b
      = { waits := b :: (runForwardLoop failAt autoRetry (i + 1) (rc + 1)
            (if MaxBackoff < b * BackoffFactor then MaxBackoff
             else b * BackoffFactor)).waits,
          attempts := (runForwardLoop failAt autoRetry (i + 1) (rc + 1)
            (if MaxBackoff < b * BackoffFactor then MaxBackoff
             else b * BackoffFactor)).attempts + 1,
          terminalRetryCount := (runForwardLoop failAt autoRetry (i + 1) (rc + 1)
            (if MaxBackoff < b * BackoffFactor then MaxBackoff
             else b * BackoffFactor)).terminalRetryCount,
          finalErrorAttempts := (runForwardLoop failAt autoRetry (i + 1) (rc + 1)
            (if MaxBackoff < b * BackoffFactor then MaxBackoff
             else b * BackoffFactor)).finalErrorAttempts,
          stopClosed := (runForwardLoop failAt autoRetry (i + 1) (rc + 1)
            (if MaxBackoff < b * BackoffFactor then MaxBackoff
             else b * BackoffFactor)).stopClosed } := by
  rw [runForwardLoop]
  rw [dif_neg h1, dif_neg h2]

/-- Full evaluation of the retry loop against a provider whose
ForwardPorts call always fails, starting from a fresh session. -/
theorem runForwardLoop_alwaysFail_eval (failAt : Nat → Bool)
    (hfail : ∀ n, failAt n = true) :
    runForwardLoop failAt true 0 0 InitialBackoff
      = ⟨[1000000000, 2000000000, 4000000000, 8000000000, 16000000000],
         6, some 5, some 6, true⟩ := by
  rw [runForwardLoop_eq_retry failAt true 0 0 _ (by simp [hfail 0])
        (by simp [MaxRetries]),
      runForwardLoop_eq_retry failAt true 1 1 _ (by simp [hfail 1])
        (by simp [MaxRetries]),
      runForwardLoop_eq_retry failAt true 2 2 _ (by simp [hfail 2])
        (by simp [MaxRetries]),
      runForwardLoop_eq_retry failAt true 3 3 _ (by simp [hfail 3])
        (by simp [MaxRetries]),
      runForwardLoop_eq_retry failAt true 4 4 _ (by simp [hfail 4])
        (by simp [MaxRetries]),
      runForwardLoop_eq_terminal failAt true 5 5 _ (by simp [hfail 5])
        (by simp [MaxRetries])]
  norm_num [InitialBackoff, MaxBackoff, BackoffFactor]

/-- With auto-retry on, the loop's terminal-error branch fires only
once retryCount has reached MaxRetries (the auto-retry-disabled exit
is unreachable).  Strong induction on the retry budget. -/
theorem runForwardLoop_terminal_exhausted (failAt : Nat → Bool) :
    ∀ k i rc b r, MaxRetries + 1 - rc ≤ k →
      (runForwardLoop failAt true i rc b).terminalRetryCount = some r →
      MaxRetries ≤ r := by
  intro k
  induction k with
  | zero =>
    intro i rc b r hk h
    by_cases h1 : failAt i = false
    · rw [runForwardLoop_eq_success failAt true i rc b h1] at h
      simp at h
    · have h2 : (true : Bool) = false ∨ MaxRetries ≤ rc := Or.inr (by omega)
      rw [runForwardLoop_eq_terminal failAt true i rc b h1 h2] at h
      simp at h
      omega
  | succ k ih =>
    intro i rc b r hk h
    by_cases h1 : failAt i = false
    · rw [runForwardLoop_eq_success failAt true i rc b h1] at h
      simp at h
    · by_cases h2 : (true : Bool) = false ∨ MaxRetries ≤ rc
      · rw [runForwardLoop_eq_terminal failAt true i rc b h1 h2] at h
        simp at h
        rcases h2 with h2 | h2
        · exact absurd h2 (by simp)
        · omega
      · rw [runForwardLoop_eq_retry failAt true i rc b h1 h2] at h
        simp only at h
        refine ih (i + 1) (rc + 1) _ r ?_ h
        rw [not_or] at h2
        omega

/-- C4: a session with auto-retry enabled against a provider that
always fails makes MaxRetries + 1 = 6 connection attempts (the
initial one plus exactly 5 retries), sleeping
min(MaxBackoff, InitialBackoff * 2 ^ retryCount) before each retry —
concretely 1s, 2s, 4s, 8s, 16s in nanoseconds — and after the 5th
retry fails it closes its stop channel (Stopped) and sends a terminal
error (attempt count 6) on the error channel. -/
theorem retryLoop_always_fail (failAt : Nat → Bool)
    (hfail : ∀ n, failAt n = true) :
    (runForwardLoop failAt true 0 0 InitialBackoff).waits
      = [1000000000, 2000000000, 4000000000, 8000000000, 16000000000]
    ∧ (runForwardLoop failAt true 0 0 InitialBackoff).attempts = MaxRetries + 1
    ∧ (runForwardLoop failAt true 0 0 InitialBackoff).waits.length = MaxRetries
    ∧ (∀ k, k < MaxRetries →
        (runForwardLoop failAt true 0 0 InitialBackoff).waits.get? k
          = some (min MaxBackoff (InitialBackoff * 2 ^ k)))
    ∧ (runForwardLoop failAt true 0 0 InitialBackoff).stopClosed = true
    ∧ (runForwardLoop failAt true 0 0 InitialBackoff).finalErrorAttempts
        = some (MaxRetries + 1)
    ∧ (runForwardLoop failAt true 0 0 InitialBackoff).terminalRetryCount
        = some MaxRetries := by
  have he := runForwardLoop_alwaysFail_eval failAt hfail
  rw [he]
  refine ⟨rfl, by norm_num [MaxRetries], by norm_num [MaxRetries], ?_,
          rfl, by norm_num [MaxRetries], by norm_num [MaxRetries]⟩
  intro k hk
  rw [MaxRetries] at hk
  interval_cases k <;>
    norm_num [MaxBackoff, InitialBackoff]

/-- Witness for C4: the loop run against the concrete always-failing
provider. -/
theorem retryLoop_always_fail_witness :
    (runForwardLoop (fun _ => true) true 0 0 InitialBackoff).waits
      = [1000000000, 2000000000, 4000000000, 8000000000, 16000000000]
    ∧ (runForwardLoop (fun _ => true) true 0 0 InitialBackoff).attempts
        = MaxRetries + 1
    ∧ (runForwardLoop (fun _ => true) true 0 0 InitialBackoff).stopClosed
        = true
    ∧ (runForwardLoop (fun _ => true) true 0 0 InitialBackoff).finalErrorAttempts
        = some (MaxRetries + 1) := by
  have h := retryLoop_always_fail (fun _ => true) (fun _ => rfl)
  exact ⟨h.1, h.2.1, h.2.2.2.2.1, h.2.2.2.2.2.1⟩

/-- The environment used by the C10 witness. -/
def c10Env : ManagerEnv :=
  ⟨⟨fun _ => true, fun _ => some 40000⟩,
   fun _ => .ok [], fun _ => .ok [], fun _ => .ok [], fun _ => true⟩

/-- The request used by the C10 witness: it explicitly asks for
AutoRetry = false. -/
def c10Req : ForwardRequest :=
  { resource := { name := "p1", nspace := "ns1", typ := .pod,
                  ports := [9090], portNames := [""],
                  targetPortSpecs := [none], displayName := "p1" },
    localPort := 9090, remotePort := 9090, podName := "",
    autoRetry := false }

/-- C10: every forwarder returned successfully by StartPortForward has
AutoRetry = true, whatever the request's AutoRetry field (the Go
defaulting never lets it become false), and consequently the retry
loop of such a forwarder can only reach its terminal-error exit with
retryCount at MaxRetries, never through the auto-retry-disabled
path. -/
theorem startPortForward_forces_autoRetry (env : ManagerEnv)
    (callIdx : Nat) (req : ForwardRequest) (fw : PortForwarder)
    (h : startPortForward env callIdx req = .ok fw) :
    fw.autoRetry = true
    ∧ ∀ failAt i rc b r,
        (runForwardLoop failAt fw.autoRetry i rc b).terminalRetryCount
          = some r → MaxRetries ≤ r := by
  have hfw : fw = mkPortForwarder req := by
    unfold startPortForward at h
    split at h <;>
      (repeat' split at h) <;>
      first
        | (injection h with h9
           exact h9.symm)
        | injection h
  have har : fw.autoRetry = true := by
    rw [hfw]
    simp only [mkPortForwarder, computeAutoRetry, AutoRetryEnable]
    cases hb : req.autoRetry <;> simp [hb]
  refine ⟨har, ?_⟩
  intro failAt i rc b r hterm
  rw [har] at hterm
  exact runForwardLoop_terminal_exhausted failAt (MaxRetries + 1 - rc)
    i rc b r (le_refl _) hterm

/-- Witness for C10: a request with AutoRetry = false still yields a
forwarder with AutoRetry = true. -/
theorem startPortForward_forces_autoRetry_witness :
    startPortForward c10Env 0 c10Req = .ok (mkPortForwarder c10Req)
    ∧ (mkPortForwarder c10Req).autoRetry = true :=
  ⟨rfl, (startPortForward_forces_autoRetry c10Env 0 c10Req
          (mkPortForwarder c10Req) rfl).1⟩

/-! ## Rollback analysis -/

theorem mem_releasePort (st : AllocState) (p q : Int) :
    q ∈ (releasePort st p).allocatedPorts
      ↔ q ∈ st.allocatedPorts ∧ q ≠ p := by
  simp [releasePort, List.mem_filter]

theorem portForwarderStop_ok (fw fw1 : PortForwarder)
    (h : portForwarderStop fw = .ok fw1) :
    fw.stopClosed = false ∧ fw1 = { fw with stopClosed := true } := by
  unfold portForwarderStop closeChannel at h
  split at h
  · exact absurd h (by simp)
  · rename_i hc
    injection h with h9
    exact ⟨by simpa using hc, h9.symm⟩

theorem stopMatchingForwarders_alloc_subset (resource : Resource) :
    ∀ (l : List PortForwarder) (alloc : AllocState)
      (l1 : List PortForwarder) (alloc1 : AllocState),
      stopMatchingForwarders resource l alloc = .ok (l1, alloc1) →
      ∀ q, q ∈ alloc1.allocatedPorts → q ∈ alloc.allocatedPorts := by
  intro l
  induction l with
  | nil =>
    intro alloc l1 alloc1 h q hq
    unfold stopMatchingForwarders at h
    injection h with h9
    obtain ⟨h1, h2⟩ := Prod.mk.injEq .. |>.mp h9
    subst h2
    exact hq
  | cons fw rest ih =>
    intro alloc l1 alloc1 h q hq
    by_cases hmatch : fw.resource.name = resource.name
        ∧ fw.resource.nspace = resource.nspace
    · cases hstop : portForwarderStop fw with
      | error msg => simp [stopMatchingForwarders, hmatch, hstop] at h
      | ok fwS =>
        cases hrec : stopMatchingForwarders resource rest
            (releasePort alloc fw.localPort) with
        | error msg =>
          simp [stopMatchingForwarders, hmatch, hstop, hrec] at h
        | ok pr =>
          obtain ⟨rest1, alloc2⟩ := pr
          simp only [stopMatchingForwarders, if_pos hmatch, hstop, hrec] at h
          injection h with h9
          obtain ⟨h1, h2⟩ := Prod.mk.injEq .. |>.mp h9
          subst h2
          have hsub := ih _ _ _ hrec q hq
          exact ((mem_releasePort _ _ _).mp hsub).1
    · cases hrec : stopMatchingForwarders resource rest alloc with
      | error msg =>
        simp [stopMatchingForwarders, hmatch, hrec] at h
      | ok pr =>
        obtain ⟨rest1, alloc2⟩ := pr
        simp only [stopMatchingForwarders, if_neg hmatch, hrec] at h
        injection h with h9
        obtain ⟨h1, h2⟩ := Prod.mk.injEq .. |>.mp h9
        subst h2
        exact ih _ _ _ hrec q hq

theorem stopMatchingForwarders_stops (resource : Resource) :
    ∀ (l : List PortForwarder) (alloc : AllocState)
      (l1 : List PortForwarder) (alloc1 : AllocState),
      stopMatchingForwarders resource l alloc = .ok (l1, alloc1) →
      ∀ fw1 ∈ l1,
        fw1.resource.name = resource.name →
        fw1.resource.nspace = resource.nspace →
        fw1.stopClosed = true ∧ fw1.localPort ∉ alloc1.allocatedPorts := by
  intro l
  induction l with
  | nil =>
    intro alloc l1 alloc1 h fw1 hmem _ _
    unfold stopMatchingForwarders at h
    injection h with h9
    obtain ⟨h1, h2⟩ := Prod.mk.injEq .. |>.mp h9
    subst h1
    exact absurd hmem (by simp)
  | cons fw rest ih =>
    intro alloc l1 alloc1 h fw1 hmem hn hns
    by_cases hmatch : fw.resource.name = resource.name
        ∧ fw.resource.nspace = resource.nspace
    · cases hstop : portForwarderStop fw with
      | error msg => simp [stopMatchingForwarders, hmatch, hstop] at h
      | ok fwS =>
        cases hrec : stopMatchingForwarders resource rest
            (releasePort alloc fw.localPort) with
        | error msg =>
          simp [stopMatchingForwarders, hmatch, hstop, hrec] at h
        | ok pr =>
          obtain ⟨rest1, alloc2⟩ := pr
          simp only [stopMatchingForwarders, if_pos hmatch, hstop, hrec] at h
          injection h with h9
          obtain ⟨h1, h2⟩ := Prod.mk.injEq .. |>.mp h9
          subst h1
          subst h2
          rcases List.mem_cons.mp hmem with hfw1 | hfw1
          · obtain ⟨-, hS⟩ := portForwarderStop_ok fw _ hstop
            rw [hfw1, hS]
            refine ⟨rfl, fun hcontra => ?_⟩
            have hsub := stopMatchingForwarders_alloc_subset resource rest _
              _ _ hrec _ hcontra
            exact ((mem_releasePort _ _ _).mp hsub).2 rfl
          · exact ih _ _ _ hrec fw1 hfw1 hn hns
    · cases hrec : stopMatchingForwarders resource rest alloc with
      | error msg =>
        simp [stopMatchingForwarders, hmatch, hrec] at h
      | ok pr =>
        obtain ⟨rest1, alloc2⟩ := pr
        simp only [stopMatchingForwarders, if_neg hmatch, hrec] at h
        injection h with h9
        obtain ⟨h1, h2⟩ := Prod.mk.injEq .. |>.mp h9
        subst h1
        subst h2
        rcases List.mem_cons.mp hmem with hfw1 | hfw1
        · subst hfw1
          exact absurd ⟨hn, hns⟩ hmatch
        · exact ih _ _ _ hrec fw1 hfw1 hn hns

theorem stopResourceForwarders_spec (st : MgrState) (resource : Resource)
    (st3 : MgrState) (h : stopResourceForwarders st resource = .ok st3) :
    ∀ fw ∈ st3.forwarders,
      fw.resource.name = resource.name →
      fw.resource.nspace = resource.nspace →
      fw.stopClosed = true ∧ fw.localPort ∉ st3.alloc.allocatedPorts := by
  unfold stopResourceForwarders at h
  split at h
  · exact absurd h (by simp)
  · rename_i fws alloc1 hrec
    injection h with h9
    subst h9
    intro fw hmem hn hns
    exact stopMatchingForwarders_stops resource st.forwarders st.alloc
      fws alloc1 hrec fw hmem hn hns

theorem handleStartFailure_spec (st2 : MgrState) (resource : Resource)
    (e : PfError) (res : ForwardResult)
    (h : handleStartFailure st2 resource e = .ok res) :
    res.err = some (.startForwardFailed resource.name e)
    ∧ ∀ fw ∈ res.state.forwarders,
        fw.resource.name = resource.name →
        fw.resource.nspace = resource.nspace →
        fw.stopClosed = true ∧ fw.localPort ∉ res.state.alloc.allocatedPorts := by
  unfold handleStartFailure at h
  split at h
  · exact absurd h (by simp)
  · rename_i st3 hstop
    injection h with h9
    subst h9
    exact ⟨rfl, stopResourceForwarders_spec st2 resource st3 hstop⟩

theorem allocateLocalPort_error_shape (env : ManagerEnv) (st : AllocState)
    (localPort suggested : Int) (e1 : PfError)
    (h : allocateLocalPort env st localPort suggested = .error e1) :
    (∃ e2, e1 = .allocateLocalPortFailed e2)
    ∨ ∃ p e2, e1 = .allocateRequestedPortFailed p e2 := by
  unfold allocateLocalPort at h
  split at h
  · split at h
    · exact absurd h (by simp)
    · split at h
      · exact absurd h (by simp)
      · injection h with h9
        exact Or.inl ⟨_, h9.symm⟩
  · split at h
    · exact absurd h (by simp)
    · injection h with h9
      exact Or.inr ⟨_, _, h9.symm⟩

/-- C1 (amended): when the session-start step fails for some port —
observable as ForwardResource returning the wrapped start-forward
error — every forwarder for that same resource in the resulting state
has been stopped and its local port released.  (Resolution and
allocation failures return their error without this rollback; see the
counterexample.) -/
theorem forwardOnePort_start_failure_rollback (env : ManagerEnv)
    (st : MgrState) (resource : Resource) (i : Nat)
    (localPort portValue : Int) (res : ForwardResult) (e : PfError)
    (hrun : forwardOnePort env st resource i localPort portValue = .ok res)
    (herr : res.err = some (.startForwardFailed resource.name e)) :
    ∀ fw ∈ res.state.forwarders,
      fw.resource.name = resource.name →
      fw.resource.nspace = resource.nspace →
      fw.stopClosed = true ∧ fw.localPort ∉ res.state.alloc.allocatedPorts := by
  unfold forwardOnePort at hrun
  split at hrun
  · -- service
    unfold forwardServicePort at hrun
    split at hrun
    · injection hrun with h9
      subst h9
      simp at herr
    · split at hrun
      · injection hrun with h9
        subst h9
        simp at herr
      · split at hrun
        · injection hrun with h9
          subst h9
          simp at herr
        · split at hrun
          · injection hrun with h9
            subst h9
            simp at herr
          · split at hrun
            · rename_i e1 heq
              injection hrun with h9
              subst h9
              simp at herr
              subst herr
              rcases allocateLocalPort_error_shape _ _ _ _ _ heq with
                ⟨e2, h7⟩ | ⟨p2, e2, h7⟩ <;> simp at h7
            · dsimp only at hrun
              split at hrun
              · exact (handleStartFailure_spec _ _ _ _ hrun).2
              · injection hrun with h9
                subst h9
                simp at herr
  · -- deployment
    unfold forwardDeploymentPort at hrun
    split at hrun
    · injection hrun with h9
      subst h9
      simp at herr
    · split at hrun
      · injection hrun with h9
        subst h9
        simp at herr
      · split at hrun
        · injection hrun with h9
          subst h9
          simp at herr
        · split at hrun
          · rename_i e1 heq
            injection hrun with h9
            subst h9
            simp at herr
            subst herr
            rcases allocateLocalPort_error_shape _ _ _ _ _ heq with
              ⟨e2, h7⟩ | ⟨p2, e2, h7⟩ <;> simp at h7
          · dsimp only at hrun
            split at hrun
            · exact (handleStartFailure_spec _ _ _ _ hrun).2
            · injection hrun with h9
              subst h9
              simp at herr
  · -- statefulset
    unfold forwardStatefulSetPort at hrun
    split at hrun
    · injection hrun with h9
      subst h9
      simp at herr
    · split at hrun
      · injection hrun with h9
        subst h9
        simp at herr
      · split at hrun
        · injection hrun with h9
          subst h9
          simp at herr
        · split at hrun
          · rename_i e1 heq
            injection hrun with h9
            subst h9
            simp at herr
            subst herr
            rcases allocateLocalPort_error_shape _ _ _ _ _ heq with
              ⟨e2, h7⟩ | ⟨p2, e2, h7⟩ <;> simp at h7
          · dsimp only at hrun
            split at hrun
            · exact (handleStartFailure_spec _ _ _ _ hrun).2
            · injection hrun with h9
              subst h9
              simp at herr
  · -- pod
    unfold forwardPodPort at hrun
    dsimp only at hrun
    split at hrun
    · rename_i e1 heq
      injection hrun with h9
      subst h9
      simp at herr
      subst herr
      rcases allocateLocalPort_error_shape _ _ _ _ _ heq with
        ⟨e2, h7⟩ | ⟨p2, e2, h7⟩ <;> simp at h7
    · split at hrun
      · exact (handleStartFailure_spec _ _ _ _ hrun).2
      · injection hrun with h9
        subst h9
        simp at herr

/-- Environment for the C1 counterexample: every OS bind succeeds and
every tunnel start succeeds; the only failure is the allocator's own
table. -/
def c1Env : ManagerEnv :=
  ⟨⟨fun _ => true, fun _ => none⟩,
   fun _ => .ok [], fun _ => .ok [], fun _ => .ok [], fun _ => true⟩

/-- A pod resource with two exposed container ports. -/
def c1Pod : Resource :=
  { name := "p1", nspace := "ns1", typ := .pod, ports := [80, 90],
    portNames := ["", ""], targetPortSpecs := [none, none],
    displayName := "p1" }

/-- The session started for c1Pod's first port. -/
def c1Forwarder : PortForwarder :=
  { resource := c1Pod, localPort := 8080, remotePort := 80,
    stopClosed := false, autoRetry := true, retryAttempts := 0 }

/-- C1 counterexample: both ports of a two-port pod are mapped to
local port 8080.  The first port starts a session on 8080; the second
port's allocation then fails with PortAlreadyAllocated and
ForwardResource returns that error — but the first port's session is
still running (its stop channel is open) and 8080 is still held in the
allocation table.  The rollback the claim promises for allocation
failures does not happen; the resource is left partially forwarded. -/
theorem forwardResource_alloc_failure_no_rollback_cex :
    forwardResource c1Env ⟨⟨[], 0⟩, [], 0⟩ c1Pod (fun _ => some 8080)
      = .ok ⟨⟨⟨[8080], 0⟩, [c1Forwarder], 1⟩,
             some (.allocateRequestedPortFailed 8080
                    (.portAlreadyAllocated 8080))⟩
    ∧ c1Forwarder.resource.name = c1Pod.name
    ∧ c1Forwarder.stopClosed = false
    ∧ c1Forwarder.localPort ∈ ([8080] : List Int) := by
  refine ⟨rfl, rfl, rfl, by decide⟩

/-- Environment for the C1 witness: the first StartPortForward call
succeeds, the second fails. -/
def c1wEnv : ManagerEnv :=
  ⟨⟨fun _ => true, fun _ => none⟩,
   fun _ => .ok [], fun _ => .ok [], fun _ => .ok [],
   fun k => k = 0⟩

/-- Witness for C1 (amended): starting c1Pod's second port (local port
9090) from the state holding the first port's running session fails at
session start, and in the returned state that first session is stopped
and its port 8080 is no longer allocated. -/
theorem forwardOnePort_start_failure_rollback_witness :
    ({ c1Forwarder with stopClosed := true } : PortForwarder).stopClosed = true
    ∧ ({ c1Forwarder with stopClosed := true } : PortForwarder).localPort
        ∉ (⟨⟨⟨[], 0⟩, [{ c1Forwarder with stopClosed := true }], 2⟩,
            some (.startForwardFailed "p1" .tunnelCreationFailed)⟩ :
            ForwardResult).state.alloc.allocatedPorts :=
  forwardOnePort_start_failure_rollback c1wEnv
    ⟨⟨[8080], 0⟩, [c1Forwarder], 1⟩ c1Pod 1 9090 90
    ⟨⟨⟨[], 0⟩, [{ c1Forwarder with stopClosed := true }], 2⟩,
       some (.startForwardFailed "p1" .tunnelCreationFailed)⟩
    .tunnelCreationFailed rfl rfl
    { c1Forwarder with stopClosed := true } (by simp) rfl rfl

/-- The running session used in the C2 analysis. -/
def c2Forwarder : PortForwarder :=
  { resource := { name := "svc1", nspace := "ns1", typ := .service,
                  ports := [80], portNames := [""],
                  targetPortSpecs := [none], displayName := "svc1" },
    localPort := 8080, remotePort := 80, stopClosed := false,
    autoRetry := true, retryAttempts := 0 }

/-- C2: Stop() is `close(pf.StopChannel)`, and closing a closed Go
channel panics.  The first Stop() on a running session succeeds; a
second Stop() on the now-stopped session panics instead of being a
no-op, and likewise Manager.Stop() run a second time (or after any
session's retry loop already closed its own stop channel on terminal
failure) panics instead of being idempotent. -/
theorem stop_double_close_panics :
    portForwarderStop c2Forwarder
      = .ok { c2Forwarder with stopClosed := true }
    ∧ portForwarderStop { c2Forwarder with stopClosed := true }
      = .error "close of closed channel"
    ∧ managerStop ⟨⟨[8080], 0⟩, [c2Forwarder], 1⟩
      = .ok ⟨⟨[], 0⟩, [{ c2Forwarder with stopClosed := true }], 1⟩
    ∧ managerStop ⟨⟨[], 0⟩, [{ c2Forwarder with stopClosed := true }], 1⟩
      = .error "close of closed channel" := by
  exact ⟨rfl, rfl, rfl, rfl⟩

/-- Environment for the C3 analysis: the OS reports every port free
except 9090, and hands out 40000 as the ephemeral port. -/
def c3Env : ManagerEnv :=
  ⟨⟨fun p => p ≠ 9090, fun _ => some 40000⟩,
   fun _ => .ok [], fun _ => .ok [], fun _ => .ok [], fun _ => true⟩

/-- A pod resource whose single container port is 9090. -/
def c3Pod : Resource :=
  { name := "p1", nspace := "ns1", typ := .pod, ports := [9090],
    portNames := [""], targetPortSpecs := [some ⟨intstrInt, 9090, ""⟩],
    displayName := "p1" }

/-- C3 counterexample: a pod target with an empty mapping whose
suggested local port 9090 is already taken by another process.  The
claim promises an ephemeral fallback; the code instead defaults the
local port to the container port (nonzero), takes the
no-fallback branch, and ForwardResource returns the port-unavailable
error with no session started and no ephemeral bind ever attempted
(ephemeralCalls is still 0). -/
theorem forwardResource_pod_no_fallback_cex :
    forwardResource c3Env ⟨⟨[], 0⟩, [], 0⟩ c3Pod (fun _ => none)
      = .ok ⟨⟨⟨[], 0⟩, [], 0⟩,
             some (.allocateRequestedPortFailed 9090
                    (.portUnavailable 9090))⟩ := by
  rfl

/-- C3 (amended): the single ephemeral fallback happens exactly when
the local port entering allocation is 0 — an unmapped
service/deployment/statefulset port, or a port explicitly mapped
to 0.  A nonzero local port (which includes a pod target's default,
since an unmapped pod port defaults to the container port itself) is
allocated with no fallback: its failure is returned directly. -/
theorem allocateLocalPort_fallback_only_when_zero (env : ManagerEnv)
    (st : AllocState) (resource : Resource) (i : Nat)
    (suggested lp portValue : Int) (e e0 : PfError) :
    (allocatePort env.os st suggested = .error e →
      allocateLocalPort env st 0 suggested
        = match allocatePort env.os st 0 with
          | .ok r => .ok r
          | .error e1 => .error (.allocateLocalPortFailed e1))
    ∧ (lp ≠ 0 → allocatePort env.os st lp = .error e0 →
      allocateLocalPort env st lp suggested
        = .error (.allocateRequestedPortFailed lp e0))
    ∧ (resource.typ = .pod →
      defaultLocalPort (fun _ => none) resource i portValue = portValue) := by
  refine ⟨?_, ?_, ?_⟩
  · intro h
    simp [allocateLocalPort, h]
  · intro h h0
    simp [allocateLocalPort, h, h0]
  · intro h
    simp [defaultLocalPort, h]

/-- Witness for C3 (amended): with 9090 taken, a zero local port falls
back to the ephemeral port 40000, while the nonzero requested local
port 9090 (the pod default for c3Pod) fails with no fallback. -/
theorem allocateLocalPort_fallback_only_when_zero_witness :
    allocateLocalPort c3Env ⟨[], 0⟩ 0 9090 = .ok (40000, ⟨[40000], 1⟩)
    ∧ allocateLocalPort c3Env ⟨[], 0⟩ 9090 9090
        = .error (.allocateRequestedPortFailed 9090 (.portUnavailable 9090))
    ∧ defaultLocalPort (fun _ => none) c3Pod 0 9090 = 9090 := by
  have h := allocateLocalPort_fallback_only_when_zero c3Env ⟨[], 0⟩ c3Pod 0
    9090 9090 9090 (.portUnavailable 9090) (.portUnavailable 9090)
  refine ⟨?_, h.2.1 (by decide) rfl, h.2.2 rfl⟩
  rw [h.1 rfl]
  rfl

end KubectlPfw
